import Mathlib

/-!
Shallow embedding of the status-change rule engine and polling loop of
the godville-monitor-console repository (`src/pygod/status_processing/rule.py`
and `src/pygod/pygod.py`), together with theorems settling the claims about
its specification.
-/

namespace PyGod

/-! ### Status snapshots (Python dicts) -/

/-- Values stored in a status-snapshot dict.  The fields the claims touch
(`expired`, `error`, `engine`, predicate inputs) carry booleans or strings. -/
inductive JVal where
  | bool (b : Bool)
  | str (s : String)
  deriving Repr, DecidableEq

/-- Python truthiness of a snapshot value (`bool(v)`): a boolean is itself,
a string is truthy iff non-empty. -/
def truthy : JVal → Bool
  | .bool b => b
  | .str s => !(s == "")

/-- A status snapshot: a Python dict from field names to values, embedded as
an association list observed only through `Snap.get?`. -/
abbrev Snap := List (String × JVal)

/-- Dict lookup, `d.get(key)` / `key in d`. -/
def Snap.get? : Snap → String → Option JVal
  | [], _ => none
  | (k, v) :: rest, key => if k == key then some v else Snap.get? rest key

/-- Dict deletion, `del d[key]`. -/
def Snap.erase (s : Snap) (key : String) : Snap :=
  s.filter (fun p => !(p.1 == key))

/-- Dict assignment, `d[key] = v` (overwrites any previous binding). -/
def Snap.set (s : Snap) (key : String) (v : JVal) : Snap :=
  (key, v) :: Snap.erase s key

/-- `hero_state.get(key, False)` used as a condition: the stored value's
truthiness when the key is present, `False` otherwise. -/
def dict_get_truthy (s : Snap) (key : String) : Bool :=
  match Snap.get? s key with
  | some v => truthy v
  | none => false

/-! ### Rule (`src/pygod/status_processing/rule.py`)

`Rule.__init__` stores `condition`, `action`, `check_active`,
`ignore_first_result` and sets `_last_result = False`.  The mutable part of
a rule is `ignore_first_result` and `_last_result`; `Rule.check` is embedded
as a function from that mutable state (plus the fixed configuration and the
snapshot) to the new state, the value `check` returns (`Optional[bool]`),
and the number of times `self.action()` was invoked during the call. -/

/-- Outcome of calling the Python predicate `self.condition(hero_state)`:
either a boolean result or a raised exception. -/
inductive CondResult where
  | ok (b : Bool)
  | exn (msg : String)
  deriving Repr, DecidableEq

/-- The mutable state of a `Rule` instance. -/
structure RuleState where
  ignore_first_result : Bool
  last_result : Bool
  deriving Repr, DecidableEq

/-- Embedding of `Rule.check` (rule.py lines 15-45).

* `check_active` guard: `if self.check_active and hero_state.get('expired',
  False): return` - an empty return, no state change, no action.
* `result = self.condition(hero_state)` inside `try`: a raised exception is
  logged and the method returns `None` with no state change.
* `run_action = True; if self.ignore_first_result: self.ignore_first_result
  = False; run_action = False` - the flag is cleared on every evaluation
  that reaches this point, and suppresses the action for this call only.
* `if self._last_result != result: self._last_result = result; if result
  and run_action: self.action(); return result` - an exception raised by
  the action is logged and swallowed (the returned `Except` outcome of the
  `action` argument is never inspected), `return result` still runs.
* otherwise `return None`.

The third component of the output counts invocations of `self.action()`.
The `action` argument is deliberately never inspected: the method ignores
the action's outcome entirely. -/
def Rule.check (check_active : Bool) (condition : Snap → CondResult)
    (action : Except String Unit) (st : RuleState) (hero_state : Snap) :
    RuleState × Option Bool × Nat :=
  if check_active && dict_get_truthy hero_state "expired" then
    (st, none, 0)
  else
    match condition hero_state with
    | .exn _ => (st, none, 0)
    | .ok result =>
      let run_action := !st.ignore_first_result
      let st1 : RuleState := { st with ignore_first_result := false }
      if st1.last_result != result then
        let st2 : RuleState := { st1 with last_result := result }
        (st2, some result, if result && run_action then 1 else 0)
      else
        (st1, none, 0)

/-- Drives one rule through a list of successive snapshots, threading the
mutable state, and records for each call the returned value and the number
of action invocations.  This is how the spec's result-sequence scenarios
exercise `Rule.check`. -/
def run_checks (check_active : Bool) (condition : Snap → CondResult)
    (action : Except String Unit) (st : RuleState) :
    List Snap → List (Option Bool × Nat)
  | [] => []
  | hero :: rest =>
    let out := Rule.check check_active condition action st hero
    (out.2.1, out.2.2) :: run_checks check_active condition action out.1 rest

/-- A snapshot whose field `v` is `True`. -/
def snap_v_true : Snap := [("v", JVal.bool true)]

/-- A snapshot whose field `v` is `False`. -/
def snap_v_false : Snap := [("v", JVal.bool false)]

/-- A concrete predicate reading boolean field `v` of the snapshot, used to
feed prescribed result sequences to a rule. -/
def read_v : Snap → CondResult := fun h => CondResult.ok (dict_get_truthy h "v")

/-! ### Rule engine pass (`Monitor.check_status`, pygod.py lines 322-328) -/

/-- One registered rule as the engine sees it: the constructor arguments of
`Rule(...)` plus the rule's current mutable state. -/
structure RuleCfg where
  check_active : Bool
  condition : Snap → CondResult
  action : Except String Unit
  state : RuleState

/-- `state_to_check = {'engine': self.engine.id()}; state_to_check.update(state)`:
the snapshot handed to every rule is the input state with an `engine` field
added when the input does not already bind one (`dict.update` lets the
input's own bindings win). -/
def state_to_check (engine_id : String) (state : Snap) : Snap :=
  match Snap.get? state "engine" with
  | some _ => state
  | none => Snap.set state "engine" (JVal.str engine_id)

/-- `Monitor.check_status`: evaluates every registered rule, in order,
against the same augmented snapshot.  `Rule.check` traps predicate and
action exceptions internally, so the iteration always visits every rule. -/
def check_status (engine_id : String) (rules : List RuleCfg) (state : Snap) :
    List (RuleState × Option Bool × Nat) :=
  let s := state_to_check engine_id state
  rules.map (fun r => Rule.check r.check_active r.condition r.action r.state s)

/-! ### Polling loop fetch-and-fallback (`Monitor.read_state`,
`Monitor._handle_read_state_exception`, pygod.py lines 218-280)

The fields of `Monitor` these methods touch are `prev_state`, `state` and
`error`.  In the running loop `self.state` holds the dict object returned by
the previous `read_state` call (`self.state = self.read_state()` in
`main_loop`), which is the same object as `self.prev_state`; mutations of
one are therefore visible through the other, and the embedding computes the
resulting values directly. -/

/-- The `Monitor` state relevant to fetching: the last returned snapshot
(`self.state`), the last known-good snapshot (`self.prev_state`, `None`
before the first success), and the carried error text (`self.error`). -/
structure MonitorState where
  prev_state : Option Snap
  state : Snap
  error : Option String
  deriving Repr, DecidableEq

/-- Outcome of the fetch attempt inside `read_state`:  a parsed snapshot, a
transient failure (`urllib.error.URLError`, `socket.timeout`,
`ConnectionError`), or any other exception. -/
inductive FetchOutcome where
  | ok (s : Snap)
  | transient (msg : String)
  | fatal
  deriving Repr

/-- `Monitor._handle_read_state_exception` (pygod.py lines 261-280): with no
previous snapshot it prints an error and calls `sys.exit(1)` (embedded as
`Except.error 1`); otherwise it records the error text in `self.error` and
returns the last known-good snapshot.  (The optional connection-error
notification is a logging/presentation effect and is not modelled.) -/
def handle_read_state_exception (m : MonitorState) (msg : String) :
    Except Nat (MonitorState × Snap) :=
  match m.prev_state with
  | none => Except.error 1
  | some prev => Except.ok ({ m with error := some msg }, prev)

/-- `Monitor.read_state` (pygod.py lines 218-259).  On a successful fetch
`self.error = None`; a transient failure is delegated to
`_handle_read_state_exception`; any other exception exits with status 1.
Then `self.prev_state = state`, and `if self.error:
self.state['error'] = self.error` - on the failure path `state`,
`self.prev_state` and `self.state` are the same dict object, so the
synthetic `error` entry appears in all three - `elif 'error' in self.state:
del self.state['error']`. -/
def read_state (m : MonitorState) (fetch : FetchOutcome) :
    Except Nat (MonitorState × Snap) :=
  let step : Except Nat (MonitorState × Snap) :=
    match fetch with
    | .ok s => Except.ok ({ m with error := none }, s)
    | .transient msg => handle_read_state_exception m msg
    | .fatal => Except.error 1
  match step with
  | .error c => Except.error c
  | .ok (m1, st) =>
    let m2 : MonitorState := { m1 with prev_state := some st }
    match m2.error with
    | some err =>
      let st2 := Snap.set st "error" (JVal.str err)
      Except.ok ({ m2 with prev_state := some st2, state := st2 }, st2)
    | none =>
      Except.ok ({ m2 with state := Snap.erase m2.state "error" }, st)

/-- One read step of `Monitor.main_loop`: `self.state = self.read_state()`. -/
def read_tick (m : MonitorState) (fetch : FetchOutcome) :
    Except Nat MonitorState :=
  match read_state m fetch with
  | .error c => Except.error c
  | .ok (m2, st) => Except.ok { m2 with state := st }

/-! ### Polling cadence (`Monitor.main_loop`, pygod.py lines 330-347) -/

/-- `UPDATE_INTERVAL = 61` seconds. -/
def UPDATE_INTERVAL : Nat := 61

/-- The timing state the loop threads between ticks: `last_update_time`
(set by `time.time()` at each fetch) and `prev_hour`
(`datetime.datetime.now().hour` of the previous tick). -/
structure LoopTimer where
  last_update_time : Nat
  prev_hour : Nat
  deriving Repr, DecidableEq

/-- The fetch condition of the loop body:
`(last_update_time + UPDATE_INTERVAL < time.time()) or new_hour != prev_hour`. -/
def fetch_due (last_update_time now prev_hour new_hour : Nat) : Bool :=
  (decide (last_update_time + UPDATE_INTERVAL < now)) || (new_hour != prev_hour)

/-- One iteration of the `while(True)` body of `main_loop`, restricted to
its timing logic: reads the clock (`now`, `new_hour`), fetches when due
(resetting `last_update_time`), and always ends with
`prev_hour = new_hour`.  The boolean reports whether a fetch happened. -/
def main_loop_tick (t : LoopTimer) (now new_hour : Nat) : LoopTimer × Bool :=
  if fetch_due t.last_update_time now t.prev_hour new_hour then
    ({ last_update_time := now, prev_hour := new_hour }, true)
  else
    ({ t with prev_hour := new_hour }, false)

/-! ### Custom-rule registration (`Monitor.init_status_checkers`,
pygod.py lines 206-216)

For each loaded custom rule the engine runs `action = custom_rule(None)`,
then `if isinstance(action, str) or isinstance(action, unicode):` wraps a
string result in `lambda action=action, args=self:
self.post_warning(action, ...)` - the lambda's default argument binds the
message text at creation time - and finally registers the rule.

The external rule source may carry mutable closure state; it is abstracted
as a natural-number version, and a callable action as a function from that
version to the notification message it posts (if any). -/

/-- What `custom_rule(None)` evaluates to at load time: a plain message
string or a callable action. -/
inductive PyValue where
  | str (s : String)
  | func (f : Nat → Option String)

/-- The action installed on the registered rule: either the wrapping lambda
holding the captured message text, or the callable itself. -/
inductive RegAction where
  | wrapped (msg : String)
  | direct (f : Nat → Option String)

/-- Python 3 evaluation of `isinstance(action, str) or isinstance(action,
unicode)`: for a string the first test is `True` and `or` short-circuits;
for any other value the first test is `False` and evaluating the bare name
`unicode` - a Python 2 builtin that does not exist in Python 3 - raises
`NameError`. -/
def isinstance_str_or_unicode (v : PyValue) : Except String Bool :=
  match v with
  | .str _ => Except.ok true
  | .func _ => Except.error "NameError: name unicode is not defined"

/-- Registration of one custom rule action (pygod.py lines 211-216): wraps
a string load result into the notification-posting lambda; a raised
`NameError` propagates out of `init_status_checkers`. -/
def register_custom_rule (load_result : PyValue) : Except String RegAction :=
  match isinstance_str_or_unicode load_result with
  | .error e => Except.error e
  | .ok true =>
    match load_result with
    | .str s => Except.ok (RegAction.wrapped s)
    | .func f => Except.ok (RegAction.direct f)
  | .ok false => Except.ok
    (match load_result with
     | .str s => RegAction.wrapped s
     | .func f => RegAction.direct f)

/-- Firing a registered action when the external closure state is at
version `v`: the wrapping lambda posts the captured message regardless of
`v`; a directly installed callable consults the closure state. -/
def fire_action : RegAction → Nat → Option String
  | .wrapped s, _ => some s
  | .direct f, v => f v

/-! ### Helper lemmas -/

/-- Looking up the key just assigned returns the assigned value. -/
theorem Snap.get?_set_self (s : Snap) (k : String) (v : JVal) :
    Snap.get? (Snap.set s k v) k = some v := by
  simp [Snap.set, Snap.get?]

/-- When the inactivity guard trips, `Rule.check` is a complete no-op. -/
theorem check_suppressed_eq (check_active : Bool) (condition : Snap → CondResult)
    (action : Except String Unit) (st : RuleState) (hero : Snap)
    (hs : (check_active && dict_get_truthy hero "expired") = true) :
    Rule.check check_active condition action st hero = (st, none, 0) := by
  simp [Rule.check, hs]

/-- When the predicate raises, `Rule.check` is a complete no-op (this also
covers the case where the guard already skipped the call). -/
theorem check_exn_eq (check_active : Bool) (condition : Snap → CondResult)
    (action : Except String Unit) (st : RuleState) (hero : Snap) (m : String)
    (hc : condition hero = CondResult.exn m) :
    Rule.check check_active condition action st hero = (st, none, 0) := by
  unfold Rule.check
  cases hs : (check_active && dict_get_truthy hero "expired") <;> simp [hs, hc]

/-- Closed form of `Rule.check` on a successful, non-suppressed predicate
evaluation. -/
theorem check_ok_eq (check_active : Bool) (condition : Snap → CondResult)
    (action : Except String Unit) (st : RuleState) (hero : Snap) (b : Bool)
    (hs : (check_active && dict_get_truthy hero "expired") = false)
    (hc : condition hero = CondResult.ok b) :
    Rule.check check_active condition action st hero =
      if st.last_result != b then
        (⟨false, b⟩, some b, if b && !st.ignore_first_result then 1 else 0)
      else
        (⟨false, st.last_result⟩, none, 0) := by
  simp [Rule.check, hs, hc]

/-! ### Claim theorems -/

/-- C1: `Rule.check` invokes the action iff the rule was not suppressed as
inactive, the predicate evaluated without error, the new result differs
from `last_result`, the new result is `true`, and the skip-first flag was
not consumed to suppress this call; `last_result` is set to the new result
whenever the predicate succeeds with a differing result, whether or not the
action ran; and on the result sequence false, true, true, false, true with
no suppression flags the action fires exactly on the 2nd and 5th
evaluations. -/
theorem check_fires_iff_rising_edge (check_active : Bool)
    (condition : Snap → CondResult) (action : Except String Unit)
    (st : RuleState) (hero : Snap) :
    ((Rule.check check_active condition action st hero).2.2 = 1 ↔
      (check_active && dict_get_truthy hero "expired") = false ∧
        condition hero = CondResult.ok true ∧
        st.last_result ≠ true ∧
        st.ignore_first_result = false) ∧
    (∀ b : Bool, (check_active && dict_get_truthy hero "expired") = false →
        condition hero = CondResult.ok b → st.last_result ≠ b →
        (Rule.check check_active condition action st hero).1.last_result = b) ∧
    ((run_checks false read_v action ⟨false, false⟩
        [snap_v_false, snap_v_true, snap_v_true, snap_v_false, snap_v_true]).map
        (fun p => p.2) = [0, 1, 0, 0, 1]) := by
  refine ⟨?_, ?_, rfl⟩
  · cases hs : (check_active && dict_get_truthy hero "expired") with
    | true =>
      rw [check_suppressed_eq _ _ _ _ _ hs]
      simp
    | false =>
      cases hc : condition hero with
      | exn m =>
        rw [check_exn_eq _ _ _ _ _ _ hc]
        simp [hc]
      | ok b =>
        rw [check_ok_eq _ _ _ _ _ _ hs hc]
        cases b <;> cases hl : st.last_result <;>
          cases hi : st.ignore_first_result <;> simp [hc, hl, hi]
  · intro b hs hc hne
    rw [check_ok_eq _ _ _ _ _ _ hs hc]
    have hb : (st.last_result != b) = true := by
      simpa [bne_iff_ne] using hne
    simp [hb]

/-- Witness for C1 at a concrete rising edge. -/
theorem check_fires_iff_rising_edge_witness :
    (Rule.check false read_v (Except.ok ()) ⟨false, false⟩ snap_v_true).2.2 = 1 ∧
    (Rule.check false read_v (Except.ok ()) ⟨false, false⟩ snap_v_true).1.last_result = true :=
  ⟨(check_fires_iff_rising_edge false read_v (Except.ok ()) ⟨false, false⟩ snap_v_true).1.mpr
      ⟨by decide, by decide, by decide, by decide⟩,
   (check_fires_iff_rising_edge false read_v (Except.ok ()) ⟨false, false⟩ snap_v_true).2.1
      true (by decide) (by decide) (by decide)⟩

/-- C2 is refuted by the code: with `ignore_first_result` set and the
result sequence false, true, false, true, the flag is consumed by the 1st
evaluation (which is not a transition), so the action fires on the 2nd
evaluation as well as the 4th - not only on the 4th as the claim states. -/
theorem skip_first_transition_counterexample :
    ((run_checks false read_v (Except.ok ()) ⟨true, false⟩
        [snap_v_false, snap_v_true, snap_v_false, snap_v_true]).map (fun p => p.2)
      = [0, 1, 0, 1]) ∧
    ((run_checks false read_v (Except.ok ()) ⟨true, false⟩
        [snap_v_false, snap_v_true, snap_v_false, snap_v_true]).map (fun p => p.2)
      ≠ [0, 0, 0, 1]) := by
  decide

/-- C2 amended: the `ignore_first_result` flag is consumed by the first
evaluation on which the rule is not suppressed for inactivity and the
predicate returns without error, whether or not that evaluation is a
transition; that evaluation runs no action; later evaluations behave
normally.  Concretely, on the result sequence false, true, false, true the
flag is consumed by the 1st evaluation, so the action fires on the 2nd and
4th evaluations. -/
theorem skip_first_consumed_on_first_check (check_active : Bool)
    (condition : Snap → CondResult) (action : Except String Unit)
    (last : Bool) (hero : Snap) (b : Bool) :
    ((check_active && dict_get_truthy hero "expired") = false →
      condition hero = CondResult.ok b →
      (Rule.check check_active condition action ⟨true, last⟩ hero).1.ignore_first_result
          = false ∧
      (Rule.check check_active condition action ⟨true, last⟩ hero).2.2 = 0) ∧
    ((run_checks false read_v action ⟨true, false⟩
        [snap_v_false, snap_v_true, snap_v_false, snap_v_true]).map (fun p => p.2)
      = [0, 1, 0, 1]) := by
  refine ⟨fun hs hc => ?_, rfl⟩
  rw [check_ok_eq _ _ _ _ _ _ hs hc]
  constructor <;> split <;> simp

/-- Witness for the amended C2: the first successful evaluation consumes
the flag and runs no action even though the result did not change. -/
theorem skip_first_consumed_on_first_check_witness :
    (Rule.check false read_v (Except.ok ()) ⟨true, false⟩ snap_v_false).1.ignore_first_result
        = false ∧
    (Rule.check false read_v (Except.ok ()) ⟨true, false⟩ snap_v_false).2.2 = 0 :=
  (skip_first_consumed_on_first_check false read_v (Except.ok ()) false
    snap_v_false false).1 (by decide) (by decide)

/-- C5: with `check_active` set and a snapshot whose `expired` field is
present and truthy, `Rule.check` returns `None` immediately and leaves the
whole rule state (both `ignore_first_result` and `last_result`) unchanged,
with no action invocation, for any predicate. -/
theorem check_inactive_skips (condition : Snap → CondResult)
    (action : Except String Unit) (st : RuleState) (hero : Snap) (v : JVal)
    (hp : Snap.get? hero "expired" = some v) (ht : truthy v = true) :
    Rule.check true condition action st hero = (st, none, 0) := by
  have hs : (true && dict_get_truthy hero "expired") = true := by
    simp [dict_get_truthy, hp, ht]
  exact check_suppressed_eq _ _ _ _ _ hs

/-- Witness for C5 on a concrete expired snapshot. -/
theorem check_inactive_skips_witness :
    Rule.check true read_v (Except.ok ()) ⟨true, true⟩
        [("expired", JVal.bool true), ("v", JVal.bool false)]
      = (⟨true, true⟩, none, 0) :=
  check_inactive_skips read_v (Except.ok ()) ⟨true, true⟩
    [("expired", JVal.bool true), ("v", JVal.bool false)]
    (JVal.bool true) (by decide) (by decide)

/-- C10: the `ignore_first_result` flag changes only after the predicate
has been invoked and returned without error on a non-suppressed evaluation
(where it is always cleared); an evaluation skipped for inactivity or a
raising predicate leaves the flag exactly as it was. -/
theorem ignore_flag_consumption (check_active : Bool)
    (condition : Snap → CondResult) (action : Except String Unit)
    (st : RuleState) (hero : Snap) :
    ((check_active && dict_get_truthy hero "expired") = true →
      (Rule.check check_active condition action st hero).1.ignore_first_result
        = st.ignore_first_result) ∧
    (∀ m : String, condition hero = CondResult.exn m →
      (Rule.check check_active condition action st hero).1.ignore_first_result
        = st.ignore_first_result) ∧
    (∀ b : Bool, (check_active && dict_get_truthy hero "expired") = false →
      condition hero = CondResult.ok b →
      (Rule.check check_active condition action st hero).1.ignore_first_result
        = false) := by
  refine ⟨fun hs => ?_, fun m hc => ?_, fun b hs hc => ?_⟩
  · rw [check_suppressed_eq _ _ _ _ _ hs]
  · rw [check_exn_eq _ _ _ _ _ _ hc]
  · rw [check_ok_eq _ _ _ _ _ _ hs hc]
    split <;> rfl

/-- Witness for C10: a raising predicate leaves the flag set, and the next
successful evaluation consumes it. -/
theorem ignore_flag_consumption_witness :
    (Rule.check false (fun _ => CondResult.exn "KeyError") (Except.ok ())
        ⟨true, false⟩ snap_v_true).1.ignore_first_result = true ∧
    (Rule.check false read_v (Except.ok ()) ⟨true, false⟩
        snap_v_true).1.ignore_first_result = false :=
  ⟨(ignore_flag_consumption false (fun _ => CondResult.exn "KeyError")
      (Except.ok ()) ⟨true, false⟩ snap_v_true).2.1 "KeyError" (by decide),
   (ignore_flag_consumption false read_v (Except.ok ()) ⟨true, false⟩
      snap_v_true).2.2 true (by decide) (by decide)⟩

/-- C3: a raising predicate makes `Rule.check` log, return `None`, leave
`last_result` (indeed the whole rule state) unchanged and invoke no action;
and a `check_status` pass evaluates every rule of the collection - the
`j`-th output entry is always the `j`-th rule's own `Rule.check` result, so
one raising rule never prevents a later rule from being evaluated. -/
theorem condition_error_isolated :
    (∀ (check_active : Bool) (condition : Snap → CondResult)
        (action : Except String Unit) (st : RuleState) (hero : Snap) (m : String),
        condition hero = CondResult.exn m →
        Rule.check check_active condition action st hero = (st, none, 0)) ∧
    (∀ (engine_id : String) (rules : List RuleCfg) (state : Snap),
        (check_status engine_id rules state).length = rules.length) ∧
    (∀ (engine_id : String) (rules : List RuleCfg) (state : Snap) (j : Nat),
        (check_status engine_id rules state)[j]? =
          (rules[j]?).map (fun r =>
            Rule.check r.check_active r.condition r.action r.state
              (state_to_check engine_id state))) := by
  refine ⟨fun _ _ _ _ _ m hc => check_exn_eq _ _ _ _ _ _ hc, ?_, ?_⟩
  · intro engine_id rules state
    simp [check_status]
  · intro engine_id rules state j
    simp [check_status, List.getElem?_map]

/-- Witness for C3: a raising predicate is a no-op for its own rule, and in
a two-rule pass where the first rule's predicate raises the second rule
still fires. -/
theorem condition_error_isolated_witness :
    (Rule.check false (fun _ => CondResult.exn "KeyError") (Except.ok ())
        ⟨false, true⟩ snap_v_true = (⟨false, true⟩, none, 0)) ∧
    ((check_status "godvillenet"
        [⟨false, fun _ => CondResult.exn "KeyError", Except.ok (), ⟨false, false⟩⟩,
         ⟨false, read_v, Except.ok (), ⟨false, false⟩⟩] snap_v_true)[1]?
      = some (⟨false, true⟩, some true, 1)) :=
  ⟨condition_error_isolated.1 false (fun _ => CondResult.exn "KeyError")
      (Except.ok ()) ⟨false, true⟩ snap_v_true "KeyError" rfl,
   by
    rw [condition_error_isolated.2.2 "godvillenet"
        [⟨false, fun _ => CondResult.exn "KeyError", Except.ok (), ⟨false, false⟩⟩,
         ⟨false, read_v, Except.ok (), ⟨false, false⟩⟩] snap_v_true 1]
    rfl⟩

/-- C6: `Rule.check` invokes the action at most once per call; the output
of the call (new state, returned value, invocation count) is entirely
independent of whether the action raises - a raised action error is
swallowed after the `last_result` update was already committed - and
whenever the action was invoked the call returns the new result `true`,
already committed to `last_result`. -/
theorem action_error_swallowed (check_active : Bool)
    (condition : Snap → CondResult) (st : RuleState) (hero : Snap) :
    (∀ action, (Rule.check check_active condition action st hero).2.2 ≤ 1) ∧
    (∀ e : String, Rule.check check_active condition (Except.error e) st hero =
        Rule.check check_active condition (Except.ok ()) st hero) ∧
    (∀ action, (Rule.check check_active condition action st hero).2.2 = 1 →
        condition hero = CondResult.ok true ∧
        (Rule.check check_active condition action st hero).1.last_result = true ∧
        (Rule.check check_active condition action st hero).2.1 = some true) := by
  have hone : ∀ action, (Rule.check check_active condition action st hero).2.2 = 1 →
      condition hero = CondResult.ok true ∧
      (Rule.check check_active condition action st hero).1.last_result = true ∧
      (Rule.check check_active condition action st hero).2.1 = some true := by
    intro action h1
    have h := (check_fires_iff_rising_edge check_active condition action st hero).1.mp h1
    obtain ⟨hs, hc, hne, hi⟩ := h
    rw [check_ok_eq _ _ _ _ _ _ hs hc] at h1 ⊢
    have hb : (st.last_result != true) = true := by
      simpa [bne_iff_ne] using hne
    simp [hb, hc]
  refine ⟨?_, fun _ => rfl, hone⟩
  intro action
  cases hs : (check_active && dict_get_truthy hero "expired") with
  | true =>
    rw [check_suppressed_eq _ _ _ _ _ hs]
    simp
  | false =>
    cases hc : condition hero with
    | exn m =>
      rw [check_exn_eq _ _ _ _ _ _ hc]
      simp
    | ok b =>
      rw [check_ok_eq _ _ _ _ _ _ hs hc]
      split
      · split <;> simp
      · simp

/-- Witness for C6 at a fired rising edge with a raising action. -/
theorem action_error_swallowed_witness :
    (Rule.check false read_v (Except.error "boom") ⟨false, false⟩ snap_v_true).2.2 ≤ 1 ∧
    Rule.check false read_v (Except.error "boom") ⟨false, false⟩ snap_v_true =
      Rule.check false read_v (Except.ok ()) ⟨false, false⟩ snap_v_true ∧
    (Rule.check false read_v (Except.error "boom") ⟨false, false⟩ snap_v_true).1.last_result
      = true :=
  ⟨(action_error_swallowed false read_v ⟨false, false⟩ snap_v_true).1 (Except.error "boom"),
   (action_error_swallowed false read_v ⟨false, false⟩ snap_v_true).2.1 "boom",
   ((action_error_swallowed false read_v ⟨false, false⟩ snap_v_true).2.2
      (Except.error "boom") (by decide)).2.1⟩

/-- C4: on a transient fetch failure the read step exits with a non-zero
status when no previous good snapshot exists; otherwise it returns the last
known-good snapshot with a synthetic `error` field recording the failure
text; and any subsequent successful fetch clears the carried error flag,
leaving a rendered state without an `error` marker whenever the fetched
snapshot itself has none. -/
theorem read_tick_fallback_policy :
    (∀ (m : MonitorState) (msg : String), m.prev_state = none →
        ∃ c : Nat, read_tick m (FetchOutcome.transient msg) = Except.error c ∧ c ≠ 0) ∧
    (∀ (m : MonitorState) (prev : Snap) (msg : String), m.prev_state = some prev →
        read_tick m (FetchOutcome.transient msg) =
          Except.ok ⟨some (Snap.set prev "error" (JVal.str msg)),
                     Snap.set prev "error" (JVal.str msg), some msg⟩ ∧
        Snap.get? (Snap.set prev "error" (JVal.str msg)) "error"
          = some (JVal.str msg)) ∧
    (∀ (m : MonitorState) (s : Snap),
        read_tick m (FetchOutcome.ok s) = Except.ok ⟨some s, s, none⟩) ∧
    (∀ (m : MonitorState) (s : Snap), Snap.get? s "error" = none →
        ∃ m2 : MonitorState, read_tick m (FetchOutcome.ok s) = Except.ok m2 ∧
          Snap.get? m2.state "error" = none ∧ m2.error = none) := by
  have hok : ∀ (m : MonitorState) (s : Snap),
      read_tick m (FetchOutcome.ok s) = Except.ok ⟨some s, s, none⟩ := by
    intro m s
    simp [read_tick, read_state]
  refine ⟨?_, ?_, hok, ?_⟩
  · intro m msg hm
    refine ⟨1, ?_, one_ne_zero⟩
    simp [read_tick, read_state, handle_read_state_exception, hm]
  · intro m prev msg hm
    refine ⟨?_, Snap.get?_set_self prev "error" (JVal.str msg)⟩
    simp [read_tick, read_state, handle_read_state_exception, hm]
  · intro m s hs
    exact ⟨⟨some s, s, none⟩, hok m s, hs, rfl⟩

/-- Witness for C4 at concrete monitor states: startup failure exits,
steady-state failure falls back with an error marker, recovery clears it. -/
theorem read_tick_fallback_policy_witness :
    (∃ c : Nat, read_tick ⟨none, [], none⟩ (FetchOutcome.transient "timed out")
        = Except.error c ∧ c ≠ 0) ∧
    read_tick ⟨some [("health", JVal.bool true)], [("health", JVal.bool true)], none⟩
        (FetchOutcome.transient "timed out")
      = Except.ok ⟨some (Snap.set [("health", JVal.bool true)] "error" (JVal.str "timed out")),
                   Snap.set [("health", JVal.bool true)] "error" (JVal.str "timed out"),
                   some "timed out"⟩ ∧
    read_tick ⟨some [("error", JVal.str "timed out"), ("health", JVal.bool true)],
               [("error", JVal.str "timed out"), ("health", JVal.bool true)],
               some "timed out"⟩
        (FetchOutcome.ok [("health", JVal.bool false)])
      = Except.ok ⟨some [("health", JVal.bool false)], [("health", JVal.bool false)], none⟩ :=
  ⟨read_tick_fallback_policy.1 ⟨none, [], none⟩ "timed out" rfl,
   (read_tick_fallback_policy.2.1
      ⟨some [("health", JVal.bool true)], [("health", JVal.bool true)], none⟩
      [("health", JVal.bool true)] "timed out" rfl).1,
   read_tick_fallback_policy.2.2.1
      ⟨some [("error", JVal.str "timed out"), ("health", JVal.bool true)],
       [("error", JVal.str "timed out"), ("health", JVal.bool true)],
       some "timed out"⟩
      [("health", JVal.bool false)]⟩

/-- C7: a loop tick fetches a fresh snapshot iff the 61-second update
interval has elapsed since the last fetch (strictly more than
`UPDATE_INTERVAL` seconds, `last_update_time + 61 < now`) or the wall-clock
hour differs from the previous tick's hour; in particular a fetch occurs on
an hour boundary even when fewer than 61 seconds have elapsed. -/
theorem fetch_due_iff (t : LoopTimer) (now new_hour : Nat) :
    ((main_loop_tick t now new_hour).2 = true ↔
      (t.last_update_time + UPDATE_INTERVAL < now ∨ new_hour ≠ t.prev_hour)) ∧
    (new_hour ≠ t.prev_hour → now < t.last_update_time + UPDATE_INTERVAL →
      (main_loop_tick t now new_hour).2 = true) ∧
    ((main_loop_tick t now new_hour).1.last_update_time =
      if (main_loop_tick t now new_hour).2 = true then now else t.last_update_time) := by
  have h2 : (main_loop_tick t now new_hour).2
      = fetch_due t.last_update_time now t.prev_hour new_hour := by
    unfold main_loop_tick
    split <;> simp_all
  refine ⟨?_, fun hne _ => ?_, ?_⟩
  · rw [h2]
    simp [fetch_due, bne_iff_ne]
  · rw [h2]
    simp [fetch_due, bne_iff_ne, hne]
  · unfold main_loop_tick
    split <;> simp_all

/-- Witness for C7: hour boundary crossed after only 30 seconds forces a
fetch. -/
theorem fetch_due_iff_witness :
    (main_loop_tick ⟨1000, 7⟩ 1030 8).2 = true :=
  (fetch_due_iff ⟨1000, 7⟩ 1030 8).2.1 (by decide) (by decide)

/-- C8: a string returned by an external rule definition at load time is
wrapped into a notification-posting action holding the message text
captured at registration time; firing the registered action posts that
captured text whatever the external closure state has become, so two
firings always post the same message. -/
theorem notification_message_bound_at_registration
    (message_at : Nat → String) (v0 v1 v2 : Nat) :
    register_custom_rule (PyValue.str (message_at v0)) =
      Except.ok (RegAction.wrapped (message_at v0)) ∧
    fire_action (RegAction.wrapped (message_at v0)) v1 = some (message_at v0) ∧
    fire_action (RegAction.wrapped (message_at v0)) v1 =
      fire_action (RegAction.wrapped (message_at v0)) v2 :=
  ⟨rfl, rfl, rfl⟩

/-- Witness for C8 with an external source whose message text depends on
its mutable closure state: firing at two later state versions still posts
the registration-time text. -/
theorem notification_message_bound_at_registration_witness :
    register_custom_rule (PyValue.str ((fun v => if v = 0 then "low health" else "mutated") 0)) =
      Except.ok (RegAction.wrapped ((fun v => if v = 0 then "low health" else "mutated") 0)) ∧
    fire_action (RegAction.wrapped ((fun v => if v = 0 then "low health" else "mutated") 0)) 5 =
      some ((fun v => if v = 0 then "low health" else "mutated") 0) ∧
    fire_action (RegAction.wrapped ((fun v => if v = 0 then "low health" else "mutated") 0)) 5 =
      fire_action (RegAction.wrapped ((fun v => if v = 0 then "low health" else "mutated") 0)) 9 :=
  notification_message_bound_at_registration (fun v => if v = 0 then "low health" else "mutated") 0 5 9

/-- C9 fails on the code: under Python 3 a custom rule whose load-time call
returns a callable hits `isinstance(action, unicode)` - the name `unicode`
does not exist in Python 3 - so registration raises `NameError` instead of
installing the callable; only the string case succeeds. -/
theorem register_callable_load_raises :
    register_custom_rule (PyValue.func (fun _ => some "external action")) =
      Except.error "NameError: name unicode is not defined" ∧
    register_custom_rule (PyValue.str "low health") =
      Except.ok (RegAction.wrapped "low health") :=
  ⟨rfl, rfl⟩

end PyGod
